import Mathlib

/-!
Verification of the SPIR-V subtarget capability resolver
(`llvm/lib/Target/SPIRV/SPIRVSubtarget.cpp`).

The development shallowly embeds the capability state of `SPIRVSubtarget`
and the functions of the source file: `computePointerSize`, `isAtLeastVer`,
`initSubtargetDependencies`, `initAvailableExtensions`,
`initAvailableExtInstSets`, and the query surface (`canUseExtension`,
`canUseExtInstSet`, `isAtLeastSPIRVVer`, `isAtLeastOpenCLVer`,
`canDirectlyComparePointers`). Sets (`SmallSet`) are embedded as lists
queried by membership; `uint32_t` version fields are embedded as `Nat`
(the source only compares them, never does arithmetic, so wrap-around
cannot be observed).
-/

namespace SPIRV

/-- Architecture component of an `llvm::Triple`, restricted to what the
SPIR-V subtarget distinguishes: the 32-bit variant, the 64-bit variant,
the logical (ID-addressed, no native pointer) variant, and any
architecture outside the SPIR-V family. -/
inductive Arch where
  | spirv32
  | spirv64
  | spirvLogical
  | otherArch
  deriving DecidableEq, Repr

/-- Modelled from the spec: `llvm::Triple` (its header is not among the
sources), cut down to the two facts the subtarget reads from it: the
architecture, and whether the environment component of the triple selects
the OpenCL ("runtime/managed") environment family. -/
structure Triple where
  arch : Arch
  isOpenCLEnvironment : Bool
  deriving DecidableEq, Repr

/-- Embeds `Triple::isSPIRV()`: the triple belongs to the SPIR-V target family. -/
def Triple.isSPIRV (t : Triple) : Bool :=
  t.arch == Arch.spirv32 || t.arch == Arch.spirv64 || t.arch == Arch.spirvLogical

/-- Embeds `SPIRV::Extension::Extension`: the enumeration of optional SPIR-V
extensions referenced by the source file. -/
inductive Extension where
  | SPV_INTEL_arbitrary_precision_integers
  | SPV_INTEL_optnone
  | SPV_KHR_no_integer_wrap_decoration
  | SPV_AMD_shader_trinary_minmax_extension
  deriving DecidableEq, Repr

/-- Embeds `SPIRV::InstructionSet::InstructionSet`: the extended-instruction-set
identifiers referenced by the source file. -/
inductive InstructionSet where
  | GLSL_std_450
  | OpenCL_std
  | SPV_AMD_shader_trinary_minmax
  deriving DecidableEq, Repr

/-- The values accepted by the `spirv-extensions` command-line option
(`cl::list<SPIRV::Extension::Extension> Extensions`, its `cl::values`
clause): exactly three extension identifiers. -/
def ExtensionsOptionValues : List Extension :=
  [Extension.SPV_INTEL_arbitrary_precision_integers,
   Extension.SPV_INTEL_optnone,
   Extension.SPV_KHR_no_integer_wrap_decoration]

/-- Embeds `static bool isAtLeastVer(uint32_t Target, uint32_t VerToCompareTo)`:
compare version numbers, but allow 0 to mean unspecified. -/
def isAtLeastVer (target verToCompareTo : Nat) : Bool :=
  target == 0 || decide (verToCompareTo ≤ target)

/-- Embeds `static unsigned computePointerSize(const Triple &TT)`. The C++
function asserts `TT.isSPIRV()`; that assertion is carried as a
hypothesis of the theorems about it. -/
def computePointerSize (tt : Triple) : Nat :=
  if tt.arch == Arch.spirv64 then 64 else 32

/-- The capability state of `SPIRVSubtarget`: the fields of the C++ class
that the resolver writes and the query surface reads. -/
structure SPIRVSubtarget where
  TargetTriple : Triple
  PointerSize : Nat
  SPIRVVersion : Nat
  OpenCLVersion : Nat
  AvailableExtensions : List Extension
  AvailableExtInstSets : List InstructionSet
  deriving DecidableEq, Repr

/-- Embeds `SPIRVSubtarget::isOpenCLEnv()`: whether the target triple selects the
OpenCL environment family. -/
def SPIRVSubtarget.isOpenCLEnv (s : SPIRVSubtarget) : Bool :=
  s.TargetTriple.isOpenCLEnvironment

/-- Embeds `SPIRVSubtarget::initSubtargetDependencies(CPU, FS)`.
`ParseSubtargetFeatures` is the external feature parser; its side effect
on the two version fields is passed in as `parsedSPIRVVersion` and
`parsedOpenCLVersion`. Afterwards each field equal to 0 is defaulted
(`SPIRVVersion` to 14, `OpenCLVersion` to 22). -/
def SPIRVSubtarget.initSubtargetDependencies (s : SPIRVSubtarget)
    (parsedSPIRVVersion parsedOpenCLVersion : Nat) : SPIRVSubtarget :=
  let s1 := { s with SPIRVVersion := parsedSPIRVVersion,
                     OpenCLVersion := parsedOpenCLVersion }
  let s2 := if s1.SPIRVVersion == 0 then { s1 with SPIRVVersion := 14 } else s1
  if s2.OpenCLVersion == 0 then { s2 with OpenCLVersion := 22 } else s2

/-- Embeds `SPIRVSubtarget::canUseExtension(E)`: membership in
`AvailableExtensions`. -/
def SPIRVSubtarget.canUseExtension (s : SPIRVSubtarget) (e : Extension) : Bool :=
  decide (e ∈ s.AvailableExtensions)

/-- Embeds `SPIRVSubtarget::canUseExtInstSet(E)`: membership in
`AvailableExtInstSets`. -/
def SPIRVSubtarget.canUseExtInstSet (s : SPIRVSubtarget)
    (i : InstructionSet) : Bool :=
  decide (i ∈ s.AvailableExtInstSets)

/-- Embeds `SPIRVSubtarget::isAtLeastSPIRVVer(VerToCompareTo)`. -/
def SPIRVSubtarget.isAtLeastSPIRVVer (s : SPIRVSubtarget) (v : Nat) : Bool :=
  isAtLeastVer s.SPIRVVersion v

/-- Embeds `SPIRVSubtarget::isAtLeastOpenCLVer(VerToCompareTo)`: false outside
the OpenCL environment, otherwise the usual comparison. -/
def SPIRVSubtarget.isAtLeastOpenCLVer (s : SPIRVSubtarget) (v : Nat) : Bool :=
  if !s.isOpenCLEnv then false
  else isAtLeastVer s.OpenCLVersion v

/-- Embeds `SPIRVSubtarget::canDirectlyComparePointers()`: the SPIR-V version is
at least 1.4 (encoded 14), so `OpPtrEqual`/`OpPtrNotEqual` are available. -/
def SPIRVSubtarget.canDirectlyComparePointers (s : SPIRVSubtarget) : Bool :=
  isAtLeastVer s.SPIRVVersion 14

/-- Embeds `SPIRVSubtarget::initAvailableExtensions()`: clear the set; outside
the OpenCL environment leave it empty, otherwise copy the command-line
extension list (`extensionsOption` stands for the process-wide
`Extensions` option contents). -/
def SPIRVSubtarget.initAvailableExtensions (s : SPIRVSubtarget)
    (extensionsOption : List Extension) : SPIRVSubtarget :=
  let s1 := { s with AvailableExtensions := [] }
  if !s1.isOpenCLEnv then s1
  else { s1 with AvailableExtensions := extensionsOption }

/-- Embeds `SPIRVSubtarget::initAvailableExtInstSets()`: clear the set, insert
the default library for the environment family (`GLSL_std_450` outside
OpenCL, `OpenCL_std` inside), then insert `SPV_AMD_shader_trinary_minmax`
when the implying extension is enabled. -/
def SPIRVSubtarget.initAvailableExtInstSets (s : SPIRVSubtarget) : SPIRVSubtarget :=
  let s1 := { s with AvailableExtInstSets := [] }
  let s2 :=
    if !s1.isOpenCLEnv then
      { s1 with AvailableExtInstSets :=
          s1.AvailableExtInstSets ++ [InstructionSet.GLSL_std_450] }
    else
      { s1 with AvailableExtInstSets :=
          s1.AvailableExtInstSets ++ [InstructionSet.OpenCL_std] }
  if s2.canUseExtension Extension.SPV_AMD_shader_trinary_minmax_extension then
    { s2 with AvailableExtInstSets :=
        s2.AvailableExtInstSets ++ [InstructionSet.SPV_AMD_shader_trinary_minmax] }
  else s2

/-- The `SPIRVSubtarget` constructor, restricted to the capability state:
pointer size from the triple, both version fields zero-initialized, then
`initSubtargetDependencies` (feature parsing and version defaulting),
`initAvailableExtensions`, `initAvailableExtInstSets`, in that order. -/
def mkSPIRVSubtarget (tt : Triple) (parsedSPIRVVersion parsedOpenCLVersion : Nat)
    (extensionsOption : List Extension) : SPIRVSubtarget :=
  let s0 : SPIRVSubtarget :=
    { TargetTriple := tt
      PointerSize := computePointerSize tt
      SPIRVVersion := 0
      OpenCLVersion := 0
      AvailableExtensions := []
      AvailableExtInstSets := [] }
  let s1 := s0.initSubtargetDependencies parsedSPIRVVersion parsedOpenCLVersion
  let s2 := s1.initAvailableExtensions extensionsOption
  s2.initAvailableExtInstSets

/-- A concrete OpenCL-environment 64-bit triple, used by the witnesses. -/
def tripleCL64 : Triple := { arch := Arch.spirv64, isOpenCLEnvironment := true }

/-- A concrete non-OpenCL 32-bit triple, used by the witnesses. -/
def tripleGL32 : Triple := { arch := Arch.spirv32, isOpenCLEnvironment := false }

theorem mkSPIRVSubtarget_TargetTriple (tt : Triple) (pv ov : Nat)
    (ext : List Extension) :
    (mkSPIRVSubtarget tt pv ov ext).TargetTriple = tt := by
  cases htt : tt.isOpenCLEnvironment <;>
    by_cases hpv : pv = 0 <;> by_cases hov : ov = 0 <;>
    by_cases hm : Extension.SPV_AMD_shader_trinary_minmax_extension ∈ ext <;>
    simp [mkSPIRVSubtarget, SPIRVSubtarget.initSubtargetDependencies,
      SPIRVSubtarget.initAvailableExtensions,
      SPIRVSubtarget.initAvailableExtInstSets,
      SPIRVSubtarget.isOpenCLEnv, SPIRVSubtarget.canUseExtension,
      htt, hpv, hov, hm]

theorem mkSPIRVSubtarget_SPIRVVersion (tt : Triple) (pv ov : Nat)
    (ext : List Extension) :
    (mkSPIRVSubtarget tt pv ov ext).SPIRVVersion = if pv = 0 then 14 else pv := by
  cases htt : tt.isOpenCLEnvironment <;>
    by_cases hpv : pv = 0 <;> by_cases hov : ov = 0 <;>
    by_cases hm : Extension.SPV_AMD_shader_trinary_minmax_extension ∈ ext <;>
    simp [mkSPIRVSubtarget, SPIRVSubtarget.initSubtargetDependencies,
      SPIRVSubtarget.initAvailableExtensions,
      SPIRVSubtarget.initAvailableExtInstSets,
      SPIRVSubtarget.isOpenCLEnv, SPIRVSubtarget.canUseExtension,
      htt, hpv, hov, hm]

theorem mkSPIRVSubtarget_OpenCLVersion (tt : Triple) (pv ov : Nat)
    (ext : List Extension) :
    (mkSPIRVSubtarget tt pv ov ext).OpenCLVersion = if ov = 0 then 22 else ov := by
  cases htt : tt.isOpenCLEnvironment <;>
    by_cases hpv : pv = 0 <;> by_cases hov : ov = 0 <;>
    by_cases hm : Extension.SPV_AMD_shader_trinary_minmax_extension ∈ ext <;>
    simp [mkSPIRVSubtarget, SPIRVSubtarget.initSubtargetDependencies,
      SPIRVSubtarget.initAvailableExtensions,
      SPIRVSubtarget.initAvailableExtInstSets,
      SPIRVSubtarget.isOpenCLEnv, SPIRVSubtarget.canUseExtension,
      htt, hpv, hov, hm]

theorem mkSPIRVSubtarget_AvailableExtensions (tt : Triple) (pv ov : Nat)
    (ext : List Extension) :
    (mkSPIRVSubtarget tt pv ov ext).AvailableExtensions =
      if tt.isOpenCLEnvironment then ext else [] := by
  cases htt : tt.isOpenCLEnvironment <;>
    by_cases hpv : pv = 0 <;> by_cases hov : ov = 0 <;>
    by_cases hm : Extension.SPV_AMD_shader_trinary_minmax_extension ∈ ext <;>
    simp [mkSPIRVSubtarget, SPIRVSubtarget.initSubtargetDependencies,
      SPIRVSubtarget.initAvailableExtensions,
      SPIRVSubtarget.initAvailableExtInstSets,
      SPIRVSubtarget.isOpenCLEnv, SPIRVSubtarget.canUseExtension,
      htt, hpv, hov, hm]

theorem mkSPIRVSubtarget_AvailableExtInstSets (tt : Triple) (pv ov : Nat)
    (ext : List Extension) :
    (mkSPIRVSubtarget tt pv ov ext).AvailableExtInstSets =
      if tt.isOpenCLEnvironment then
        (if Extension.SPV_AMD_shader_trinary_minmax_extension ∈ ext then
          [InstructionSet.OpenCL_std, InstructionSet.SPV_AMD_shader_trinary_minmax]
        else [InstructionSet.OpenCL_std])
      else [InstructionSet.GLSL_std_450] := by
  cases htt : tt.isOpenCLEnvironment <;>
    by_cases hpv : pv = 0 <;> by_cases hov : ov = 0 <;>
    by_cases hm : Extension.SPV_AMD_shader_trinary_minmax_extension ∈ ext <;>
    simp [mkSPIRVSubtarget, SPIRVSubtarget.initSubtargetDependencies,
      SPIRVSubtarget.initAvailableExtensions,
      SPIRVSubtarget.initAvailableExtInstSets,
      SPIRVSubtarget.isOpenCLEnv, SPIRVSubtarget.canUseExtension,
      htt, hpv, hov, hm]

/-- Claim C1: within the SPIR-V target family (the assertion carried as a
hypothesis), computePointerSize returns 64 on the 64-bit variant and 32 on
every other variant, including the logical ID-addressed one. -/
theorem C1_computePointerSize (tt : Triple) (_h : tt.isSPIRV = true) :
    (tt.arch = Arch.spirv64 → computePointerSize tt = 64) ∧
    (tt.arch ≠ Arch.spirv64 → computePointerSize tt = 32) := by
  constructor <;> intro ha <;> simp [computePointerSize, ha]

/-- Witness for C1 at the concrete 64-bit and logical triples. -/
theorem C1_computePointerSize_witness :
    computePointerSize { arch := Arch.spirv64, isOpenCLEnvironment := true } = 64 ∧
    computePointerSize { arch := Arch.spirvLogical, isOpenCLEnvironment := false } = 32 :=
  ⟨(C1_computePointerSize
      { arch := Arch.spirv64, isOpenCLEnvironment := true } (by decide)).1 rfl,
   (C1_computePointerSize
      { arch := Arch.spirvLogical, isOpenCLEnvironment := false } (by decide)).2
     (by decide)⟩

/-- Claim C2: after feature parsing, initSubtargetDependencies sets
SPIRVVersion to 14 exactly when the parsed value is 0 and OpenCLVersion to
22 exactly when the parsed value is 0, leaves nonzero parsed values
unchanged, and both fields end up nonzero. -/
theorem C2_versionDefaulting (s : SPIRVSubtarget) (pv ov : Nat) :
    (pv = 0 → (s.initSubtargetDependencies pv ov).SPIRVVersion = 14) ∧
    (pv ≠ 0 → (s.initSubtargetDependencies pv ov).SPIRVVersion = pv) ∧
    (ov = 0 → (s.initSubtargetDependencies pv ov).OpenCLVersion = 22) ∧
    (ov ≠ 0 → (s.initSubtargetDependencies pv ov).OpenCLVersion = ov) ∧
    (s.initSubtargetDependencies pv ov).SPIRVVersion ≠ 0 ∧
    (s.initSubtargetDependencies pv ov).OpenCLVersion ≠ 0 := by
  by_cases hpv : pv = 0 <;> by_cases hov : ov = 0 <;>
    simp [SPIRVSubtarget.initSubtargetDependencies, hpv, hov]

/-- Witness for C2: a zero parsed format version defaults to 14 and a
nonzero parsed environment version 21 is kept. -/
theorem C2_versionDefaulting_witness :
    ((mkSPIRVSubtarget tripleCL64 0 0 []).initSubtargetDependencies 0 21).SPIRVVersion = 14 ∧
    ((mkSPIRVSubtarget tripleCL64 0 0 []).initSubtargetDependencies 0 21).OpenCLVersion = 21 :=
  ⟨(C2_versionDefaulting (mkSPIRVSubtarget tripleCL64 0 0 []) 0 21).1 rfl,
   (C2_versionDefaulting (mkSPIRVSubtarget tripleCL64 0 0 []) 0 21).2.2.2.1 (by decide)⟩

/-- Claim C3: isAtLeastSPIRVVer v is true iff the stored version is 0 or
at least v; a stored 0 satisfies every query, and a nonzero stored k
satisfies exactly the queries with v at most k. -/
theorem C3_isAtLeastSPIRVVer_spec (s : SPIRVSubtarget) (v : Nat) :
    (s.isAtLeastSPIRVVer v = true ↔ (s.SPIRVVersion = 0 ∨ v ≤ s.SPIRVVersion)) ∧
    (s.SPIRVVersion = 0 → s.isAtLeastSPIRVVer v = true) ∧
    (s.SPIRVVersion ≠ 0 → (s.isAtLeastSPIRVVer v = true ↔ v ≤ s.SPIRVVersion)) := by
  refine ⟨by simp [SPIRVSubtarget.isAtLeastSPIRVVer, isAtLeastVer], ?_, ?_⟩ <;>
    intro h <;> simp [SPIRVSubtarget.isAtLeastSPIRVVer, isAtLeastVer, h]

/-- Witness for C3 at stored version 13: at-least-13 holds, at-least-14
fails. -/
theorem C3_isAtLeastSPIRVVer_spec_witness :
    ((mkSPIRVSubtarget tripleCL64 13 0 []).isAtLeastSPIRVVer 13 = true ↔
      (13 : Nat) ≤ (mkSPIRVSubtarget tripleCL64 13 0 []).SPIRVVersion) ∧
    (mkSPIRVSubtarget tripleCL64 13 0 []).isAtLeastSPIRVVer 13 = true :=
  ⟨(C3_isAtLeastSPIRVVer_spec (mkSPIRVSubtarget tripleCL64 13 0 []) 13).2.2 (by decide),
   (C3_isAtLeastSPIRVVer_spec (mkSPIRVSubtarget tripleCL64 13 0 []) 13).1.mpr
     (Or.inr (by decide))⟩

/-- Claim C4: isAtLeastOpenCLVer is false outside the OpenCL environment
family; inside it, it is true iff the stored environment version is 0 or
at least the queried minimum. -/
theorem C4_isAtLeastOpenCLVer_spec (s : SPIRVSubtarget) (v : Nat) :
    (s.isOpenCLEnv = false → s.isAtLeastOpenCLVer v = false) ∧
    (s.isOpenCLEnv = true →
      (s.isAtLeastOpenCLVer v = true ↔
        (s.OpenCLVersion = 0 ∨ v ≤ s.OpenCLVersion))) := by
  cases h : s.isOpenCLEnv <;>
    simp [SPIRVSubtarget.isAtLeastOpenCLVer, isAtLeastVer, h]

/-- Witness for C4: a non-OpenCL snapshot answers false even for minimum
0, and an OpenCL snapshot with stored version 22 satisfies minimum 22. -/
theorem C4_isAtLeastOpenCLVer_spec_witness :
    (mkSPIRVSubtarget tripleGL32 0 0 []).isAtLeastOpenCLVer 0 = false ∧
    (mkSPIRVSubtarget tripleCL64 0 0 []).isAtLeastOpenCLVer 22 = true :=
  ⟨(C4_isAtLeastOpenCLVer_spec (mkSPIRVSubtarget tripleGL32 0 0 []) 0).1 (by decide),
   (C4_isAtLeastOpenCLVer_spec (mkSPIRVSubtarget tripleCL64 0 0 []) 22).2 (by decide)
     |>.mpr (Or.inr (by decide))⟩

/-- Claim C5: canDirectlyComparePointers coincides with
isAtLeastSPIRVVer 14, so it is true exactly when the stored format
version is 0 or at least 14. -/
theorem C5_canDirectlyComparePointers_spec (s : SPIRVSubtarget) :
    s.canDirectlyComparePointers = s.isAtLeastSPIRVVer 14 ∧
    (s.canDirectlyComparePointers = true ↔
      (s.SPIRVVersion = 0 ∨ 14 ≤ s.SPIRVVersion)) := by
  constructor <;>
    simp [SPIRVSubtarget.canDirectlyComparePointers,
      SPIRVSubtarget.isAtLeastSPIRVVer, isAtLeastVer]

/-- Claim C6: outside the OpenCL environment family the resolved
extension set is empty for every configuration list, so canUseExtension
answers false for every extension id. -/
theorem C6_nonOpenCL_noExtensions (tt : Triple) (pv ov : Nat)
    (ext : List Extension) (h : tt.isOpenCLEnvironment = false) :
    (mkSPIRVSubtarget tt pv ov ext).AvailableExtensions = [] ∧
    ∀ e : Extension, (mkSPIRVSubtarget tt pv ov ext).canUseExtension e = false := by
  have hext := mkSPIRVSubtarget_AvailableExtensions tt pv ov ext
  rw [h] at hext
  simp only [if_neg Bool.false_ne_true] at hext
  refine ⟨hext, fun e => ?_⟩
  simp [SPIRVSubtarget.canUseExtension, hext]

/-- Witness for C6: with the full option list configured but a non-OpenCL
triple, no extension is usable. -/
theorem C6_nonOpenCL_noExtensions_witness :
    (mkSPIRVSubtarget tripleGL32 0 0 ExtensionsOptionValues).AvailableExtensions = [] ∧
    (mkSPIRVSubtarget tripleGL32 0 0 ExtensionsOptionValues).canUseExtension
      Extension.SPV_INTEL_optnone = false :=
  ⟨(C6_nonOpenCL_noExtensions tripleGL32 0 0 ExtensionsOptionValues (by decide)).1,
   (C6_nonOpenCL_noExtensions tripleGL32 0 0 ExtensionsOptionValues (by decide)).2
     Extension.SPV_INTEL_optnone⟩

/-- Claim C7: inside the OpenCL environment family, canUseExtension is
true exactly for the ids occurring in the configuration list. -/
theorem C7_openCL_extensionMembership (tt : Triple) (pv ov : Nat)
    (ext : List Extension) (h : tt.isOpenCLEnvironment = true) (e : Extension) :
    ((mkSPIRVSubtarget tt pv ov ext).canUseExtension e = true ↔ e ∈ ext) := by
  have hext := mkSPIRVSubtarget_AvailableExtensions tt pv ov ext
  rw [h] at hext
  simp only [if_pos rfl] at hext
  simp [SPIRVSubtarget.canUseExtension, hext]

/-- Witness for C7 with the list of two distinct ids A and C: both are
usable and an id B outside the list is not. -/
theorem C7_openCL_extensionMembership_witness :
    (mkSPIRVSubtarget tripleCL64 0 0
      [Extension.SPV_INTEL_arbitrary_precision_integers,
       Extension.SPV_KHR_no_integer_wrap_decoration]).canUseExtension
      Extension.SPV_INTEL_arbitrary_precision_integers = true ∧
    (mkSPIRVSubtarget tripleCL64 0 0
      [Extension.SPV_INTEL_arbitrary_precision_integers,
       Extension.SPV_KHR_no_integer_wrap_decoration]).canUseExtension
      Extension.SPV_KHR_no_integer_wrap_decoration = true ∧
    (mkSPIRVSubtarget tripleCL64 0 0
      [Extension.SPV_INTEL_arbitrary_precision_integers,
       Extension.SPV_KHR_no_integer_wrap_decoration]).canUseExtension
      Extension.SPV_INTEL_optnone = false :=
  ⟨(C7_openCL_extensionMembership tripleCL64 0 0
      [Extension.SPV_INTEL_arbitrary_precision_integers,
       Extension.SPV_KHR_no_integer_wrap_decoration] (by decide)
      Extension.SPV_INTEL_arbitrary_precision_integers).mpr (by decide),
   (C7_openCL_extensionMembership tripleCL64 0 0
      [Extension.SPV_INTEL_arbitrary_precision_integers,
       Extension.SPV_KHR_no_integer_wrap_decoration] (by decide)
      Extension.SPV_KHR_no_integer_wrap_decoration).mpr (by decide),
   Bool.not_eq_true _ ▸ (fun hc =>
     (by decide :
        Extension.SPV_INTEL_optnone ∉
          [Extension.SPV_INTEL_arbitrary_precision_integers,
           Extension.SPV_KHR_no_integer_wrap_decoration])
       ((C7_openCL_extensionMembership tripleCL64 0 0
          [Extension.SPV_INTEL_arbitrary_precision_integers,
           Extension.SPV_KHR_no_integer_wrap_decoration] (by decide)
          Extension.SPV_INTEL_optnone).mp hc))⟩

/-- Claim C8: when the implying extension is not enabled, the resolved
extended-instruction-set set is exactly the one default chosen by the
environment family, and the two defaults are never both present. -/
theorem C8_defaultExtInstSet (tt : Triple) (pv ov : Nat) (ext : List Extension)
    (h : Extension.SPV_AMD_shader_trinary_minmax_extension ∉ ext) :
    (tt.isOpenCLEnvironment = false →
      (mkSPIRVSubtarget tt pv ov ext).AvailableExtInstSets =
        [InstructionSet.GLSL_std_450]) ∧
    (tt.isOpenCLEnvironment = true →
      (mkSPIRVSubtarget tt pv ov ext).AvailableExtInstSets =
        [InstructionSet.OpenCL_std]) ∧
    ¬(InstructionSet.GLSL_std_450 ∈ (mkSPIRVSubtarget tt pv ov ext).AvailableExtInstSets ∧
      InstructionSet.OpenCL_std ∈ (mkSPIRVSubtarget tt pv ov ext).AvailableExtInstSets) := by
  have hsets := mkSPIRVSubtarget_AvailableExtInstSets tt pv ov ext
  cases htt : tt.isOpenCLEnvironment <;> rw [htt] at hsets <;>
    simp [if_neg h] at hsets <;> simp [hsets]

/-- Witness for C8: library default for a non-OpenCL snapshot, runtime
default for an OpenCL snapshot, with no extensions configured. -/
theorem C8_defaultExtInstSet_witness :
    (mkSPIRVSubtarget tripleGL32 0 0 []).AvailableExtInstSets =
      [InstructionSet.GLSL_std_450] ∧
    (mkSPIRVSubtarget tripleCL64 0 0 []).AvailableExtInstSets =
      [InstructionSet.OpenCL_std] :=
  ⟨(C8_defaultExtInstSet tripleGL32 0 0 [] (by decide)).1 (by decide),
   (C8_defaultExtInstSet tripleCL64 0 0 [] (by decide)).2.1 (by decide)⟩

/-- Claim C9: in the OpenCL environment, adding the trinary-min/max
extension to the configuration flips canUseExtInstSet for the implied
vendor library from false to true and changes no other membership. -/
theorem C9_trinaryFrameEffect (tt : Triple) (pv ov : Nat) (ext : List Extension)
    (henv : tt.isOpenCLEnvironment = true)
    (h : Extension.SPV_AMD_shader_trinary_minmax_extension ∉ ext) :
    (mkSPIRVSubtarget tt pv ov ext).canUseExtInstSet
      InstructionSet.SPV_AMD_shader_trinary_minmax = false ∧
    (mkSPIRVSubtarget tt pv ov
        (Extension.SPV_AMD_shader_trinary_minmax_extension :: ext)).canUseExtInstSet
      InstructionSet.SPV_AMD_shader_trinary_minmax = true ∧
    ∀ i : InstructionSet, i ≠ InstructionSet.SPV_AMD_shader_trinary_minmax →
      (mkSPIRVSubtarget tt pv ov ext).canUseExtInstSet i =
      (mkSPIRVSubtarget tt pv ov
        (Extension.SPV_AMD_shader_trinary_minmax_extension :: ext)).canUseExtInstSet i := by
  have h1 := mkSPIRVSubtarget_AvailableExtInstSets tt pv ov ext
  have h2 := mkSPIRVSubtarget_AvailableExtInstSets tt pv ov
    (Extension.SPV_AMD_shader_trinary_minmax_extension :: ext)
  rw [henv] at h1 h2
  simp only [if_pos rfl, if_neg h, List.mem_cons, true_or, if_pos] at h1 h2
  refine ⟨?_, ?_, fun i hi => ?_⟩
  · simp [SPIRVSubtarget.canUseExtInstSet, h1]
  · simp [SPIRVSubtarget.canUseExtInstSet, h2]
  · simp [SPIRVSubtarget.canUseExtInstSet, h1, h2, hi]

/-- Witness for C9 at the OpenCL triple with an otherwise empty
configuration list. -/
theorem C9_trinaryFrameEffect_witness :
    (mkSPIRVSubtarget tripleCL64 0 0 []).canUseExtInstSet
      InstructionSet.SPV_AMD_shader_trinary_minmax = false ∧
    (mkSPIRVSubtarget tripleCL64 0 0
        [Extension.SPV_AMD_shader_trinary_minmax_extension]).canUseExtInstSet
      InstructionSet.SPV_AMD_shader_trinary_minmax = true ∧
    (mkSPIRVSubtarget tripleCL64 0 0 []).canUseExtInstSet
        InstructionSet.OpenCL_std =
      (mkSPIRVSubtarget tripleCL64 0 0
        [Extension.SPV_AMD_shader_trinary_minmax_extension]).canUseExtInstSet
        InstructionSet.OpenCL_std :=
  ⟨(C9_trinaryFrameEffect tripleCL64 0 0 [] (by decide) (by decide)).1,
   (C9_trinaryFrameEffect tripleCL64 0 0 [] (by decide) (by decide)).2.1,
   (C9_trinaryFrameEffect tripleCL64 0 0 [] (by decide) (by decide)).2.2
     InstructionSet.OpenCL_std (by decide)⟩

/-- Claim C10: any configuration list drawn from the three identifiers the
command-line option accepts can never enable the trinary-min/max
extension, so the implied vendor library is never usable through that
surface. -/
theorem C10_optionSurface_noTrinary (tt : Triple) (pv ov : Nat)
    (ext : List Extension) (h : ∀ e ∈ ext, e ∈ ExtensionsOptionValues) :
    (mkSPIRVSubtarget tt pv ov ext).canUseExtInstSet
      InstructionSet.SPV_AMD_shader_trinary_minmax = false := by
  have hnot : Extension.SPV_AMD_shader_trinary_minmax_extension ∉ ext := by
    intro hc
    exact (by decide :
      Extension.SPV_AMD_shader_trinary_minmax_extension ∉ ExtensionsOptionValues)
      (h _ hc)
  have hsets := mkSPIRVSubtarget_AvailableExtInstSets tt pv ov ext
  rw [if_neg hnot] at hsets
  cases htt : tt.isOpenCLEnvironment <;> rw [htt] at hsets <;>
    simp at hsets <;> simp [SPIRVSubtarget.canUseExtInstSet, hsets]

/-- Witness for C10: the full accepted option list still leaves the
vendor trinary-min/max library unusable. -/
theorem C10_optionSurface_noTrinary_witness :
    (mkSPIRVSubtarget tripleCL64 0 0 ExtensionsOptionValues).canUseExtInstSet
      InstructionSet.SPV_AMD_shader_trinary_minmax = false :=
  C10_optionSurface_noTrinary tripleCL64 0 0 ExtensionsOptionValues (by decide)

end SPIRV
